import Mathlib

/-!
Shallow embedding of the databricks-blade-poc ingestion pipeline.

Sources translated:
  src/internal/databricks/client.go     (Client, ensureCatalogAndSchema,
                                         ensureTableExists, getRowCount)
  src/internal/databricks/ingestion.go  (IngestBLADEData, insertMockData)
  src/internal/databricks/models.go     (IngestionRequest, IngestionResult)
  src/internal/blade/adapter.go         (PrepareIngestionRequest,
                                         loadMockCSVAsJSON, splitAndTrim)
  src/internal/blade/models.go          (BLADEDataMapping, GetBLADEMappings)

External collaborators (the Databricks SQL-execution API, the file system and
Go's encoding/json codec) are modelled abstractly: the SQL executor as one
outcome per call site (the code performs at most five executor calls in a fixed
linear order and never retries), file loading as loader functions supplied by
the caller, and the JSON codec as a pair of unmarshal/marshal functions.  Per
the executor interface of the spec (execute SQL, return status and rows), an
executor success always carries a statement status.  Wall-clock timing
(time.Now / Duration) is not modelled; batch identifiers (derived from the
clock in Go) are passed in as parameters.
-/

/-- Go error values: either a leaf error or an error wrapped by
fmt.Errorf with the %w verb (message plus cause). -/
inductive GoErr where
  | base (msg : String)
  | wrap (msg : String) (cause : GoErr)
deriving DecidableEq, Repr

/-- Statement execution states of the Databricks SQL API
(sql.StatementState in the Go SDK). -/
inductive StmtState where
  | pending
  | running
  | succeeded
  | failed
  | canceled
  | closed
deriving DecidableEq, Repr

/-- An executor response: the statement status and the result's DataArray
(empty when the response carries no result rows). -/
structure ExecResp where
  state : StmtState
  rows : List (List String)
deriving DecidableEq, Repr

/-- Outcome of one ExecuteStatement call: a transport error or a response. -/
def ExecOutcome : Type := Except GoErr ExecResp

/-- The SQL-execution environment for one ingestion run.  IngestBLADEData makes
at most five executor calls in a fixed order (create catalog, create schema,
create table, insert, count); each field is the outcome the executor would
give at that call site. -/
structure ExecEnv where
  catalogR : ExecOutcome
  schemaR : ExecOutcome
  tableR : ExecOutcome
  insertR : ExecOutcome
  countR : ExecOutcome

/-- The Databricks client configuration (client.go: Client struct; the
workspace handle is the abstract executor). -/
structure Client where
  warehouseID : String
  catalog : String
  schema : String
deriving DecidableEq, Repr

/-- Which executor call site a call came from, for run traces. -/
inductive CallTag where
  | execCatalog
  | execSchema
  | execTable
  | execInsert
  | execCount
deriving DecidableEq, Repr

/-- One executor call made during a run: its call site and the exact SQL
statement submitted. -/
structure ExecCall where
  tag : CallTag
  statement : String
deriving DecidableEq, Repr

/-- JSON values as produced by Go's encoding/json unmarshalling into
interface{}: null, booleans, numbers (kept as their rendered text), strings,
arrays and objects. -/
inductive JVal where
  | null
  | bool (b : Bool)
  | num (lit : String)
  | str (s : String)
  | arr (l : List JVal)
  | obj (l : List (String × JVal))

/-- A parsed record: map[string]interface{} from json.Unmarshal, as an
association list. -/
def GoRec : Type := List (String × JVal)

/-- Abstract model of Go's encoding/json as used by the pipeline:
unmarshal of a sample-data payload into []map[string]interface{}, marshal of
one record, and marshal of a record slice (the CSV-to-JSON step; Marshal of
these values never fails in Go, so it is total here). -/
structure JsonCodec where
  unmarshal : String → Except GoErr (List GoRec)
  marshal : GoRec → String
  marshalList : List GoRec → String

/-- IngestionRequest (models.go), with SampleData and string metadata. -/
structure IngestionRequest where
  tableName : String
  sourcePath : String
  fileFormat : String
  formatOptions : String
  dataSource : String
  sampleData : String
  metadata : List (String × String)
deriving DecidableEq, Repr

/-- Values of the result's map[string]interface{} metadata: the code stores
strings and one nested map[string]string (the request metadata). -/
inductive MetaVal where
  | str (s : String)
  | strMap (m : List (String × String))
deriving DecidableEq, Repr

/-- IngestionResult (models.go).  Wall-clock Duration is not modelled.
metadata is none when the Go code leaves the field nil. -/
structure IngestionResult where
  rowsIngested : Int
  tableName : String
  status : String
  error : Option GoErr
  metadata : Option (List (String × MetaVal))
deriving DecidableEq, Repr

/-- What one IngestBLADEData run yields: the trace of executor calls made, the
returned result pointer (none models a nil *IngestionResult) and the returned
error. -/
structure IngestOutput where
  calls : List ExecCall
  result : Option IngestionResult
  err : Option GoErr
deriving DecidableEq, Repr

/-- Go map indexing with the string zero value for a missing key
(req.Metadata["mode"] reads as "" when absent). -/
def lookupD (m : List (String × String)) (k : String) : String :=
  match m.find? (fun p => p.1 == k) with
  | some p => p.2
  | none => ""

/-- ensureCatalogAndSchema (client.go): CREATE CATALOG IF NOT EXISTS, then
CREATE SCHEMA IF NOT EXISTS, each through the executor, wrapping failures. -/
def ensureCatalogAndSchema (c : Client) (env : ExecEnv) :
    List ExecCall × Option GoErr :=
  let catCall : ExecCall :=
    ⟨.execCatalog, "CREATE CATALOG IF NOT EXISTS " ++ c.catalog⟩
  match env.catalogR with
  | .error e =>
      ([catCall], some (.wrap ("failed to create catalog " ++ c.catalog) e))
  | .ok _ =>
      let schCall : ExecCall :=
        ⟨.execSchema,
          "CREATE SCHEMA IF NOT EXISTS " ++ c.catalog ++ "." ++ c.schema⟩
      match env.schemaR with
      | .error e =>
          ([catCall, schCall],
            some (.wrap
              ("failed to create schema " ++ c.catalog ++ "." ++ c.schema) e))
      | .ok _ => ([catCall, schCall], none)

/-- The CREATE TABLE statement of ensureTableExists (client.go), with the
fixed eight-column schema. -/
def createTableSQL (c : Client) (tableName : String) : String :=
  "\n\t\tCREATE TABLE IF NOT EXISTS " ++ c.catalog ++ "." ++ c.schema ++ "."
    ++ tableName
    ++ " (\n\t\t\titem_id STRING,\n\t\t\titem_type STRING,\n\t\t\t"
    ++ "classification_marking STRING,\n\t\t\ttimestamp TIMESTAMP,\n\t\t\t"
    ++ "data_source STRING,\n\t\t\traw_data STRING,\n\t\t\t"
    ++ "ingestion_timestamp TIMESTAMP,\n\t\t\tmetadata MAP<STRING, STRING>\n\t\t)\n\t"

/-- ensureTableExists (client.go): ensure catalog and schema, then CREATE
TABLE IF NOT EXISTS; a catalog/schema failure is returned unwrapped, a table
failure is wrapped with the table name. -/
def ensureTableExists (c : Client) (env : ExecEnv) (req : IngestionRequest) :
    List ExecCall × Option GoErr :=
  match ensureCatalogAndSchema c env with
  | (t, some e) => (t, some e)
  | (t, none) =>
      let tblCall : ExecCall := ⟨.execTable, createTableSQL c req.tableName⟩
      match env.tableR with
      | .error e =>
          (t ++ [tblCall],
            some (.wrap ("Failed to create table " ++ req.tableName) e))
      | .ok _ => (t ++ [tblCall], none)

/-- Digits-only decimal reading for goParseInt64 (none when a non-digit
appears; the empty list reads as 0 and is excluded by the caller). -/
def digitsToNat? (cs : List Char) : Option Nat :=
  cs.foldl
    (fun acc c =>
      match acc with
      | none => none
      | some n => if c.isDigit then some (n * 10 + (c.toNat - 48)) else none)
    (some 0)

/-- strconv.ParseInt(s, 10, 64): optional sign, at least one decimal digit,
value within the signed 64-bit range. -/
def goParseInt64 (s : String) : Option Int :=
  match s.data with
  | [] => none
  | c :: rest =>
      let signAndDigits : Bool × List Char :=
        if c = '-' then (true, rest)
        else if c = '+' then (false, rest) else (false, c :: rest)
      match signAndDigits with
      | (neg, ds) =>
          if ds = [] then none
          else
            match digitsToNat? ds with
            | none => none
            | some n =>
                if neg then
                  if n ≤ 9223372036854775808 then some (-(n : Int)) else none
                else if n ≤ 9223372036854775807 then some (n : Int) else none

/-- The COUNT query of getRowCount (client.go). -/
def countSQL (c : Client) (tableName : String) : String :=
  "SELECT COUNT(*) as row_count FROM " ++ c.catalog ++ "." ++ c.schema ++ "."
    ++ tableName

/-- getRowCount (client.go): run the COUNT query; on transport error wrap it;
when the response has a first row with a first cell, parse it as int64 (a
parse failure is an error), otherwise return 0. -/
def getRowCount (c : Client) (env : ExecEnv) (tableName : String) :
    List ExecCall × Except GoErr Int :=
  let call : ExecCall := ⟨.execCount, countSQL c tableName⟩
  let res : Except GoErr Int :=
    match env.countR with
    | .error e => .error (.wrap "failed to get row count" e)
    | .ok resp =>
        match resp.rows with
        | (cell :: _) :: _ =>
            match goParseInt64 cell with
            | none => .error (.base ("failed to parse row count " ++ cell))
            | some n => .ok n
        | _ => .ok 0
  ([call], res)

mutual

/-- fmt's %s rendering of an interface{} value holding a JSON-decoded value
(used for record["item_id"] and friends in insertMockData): strings print
verbatim, nil prints the %s error form, other kinds print fmt's default forms.
Go sorts map keys when printing; our association lists are kept in a canonical
order, so entries are rendered in list order. -/
def goSprintfS : JVal → String
  | .str s => s
  | .null => "%!s(<nil>)"
  | .bool b => "%!s(bool=" ++ (if b then "true" else "false") ++ ")"
  | .num lit => "%!s(float64=" ++ lit ++ ")"
  | .arr l => "[" ++ goSprintfSList l ++ "]"
  | .obj l => "map[" ++ goSprintfSObj l ++ "]"

/-- Space-separated %s rendering of a decoded JSON array's elements. -/
def goSprintfSList : List JVal → String
  | [] => ""
  | [v] => goSprintfS v
  | v :: rest => goSprintfS v ++ " " ++ goSprintfSList rest

/-- Space-separated key:value %s rendering of a decoded JSON object's
entries. -/
def goSprintfSObj : List (String × JVal) → String
  | [] => ""
  | [(k, v)] => k ++ ":" ++ goSprintfS v
  | (k, v) :: rest => k ++ ":" ++ goSprintfS v ++ " " ++ goSprintfSObj rest

end

/-- The SQL single-quote character. -/
def sqlQuote : Char := '\''

/-- Per-character expansion used by the quote escaping: a single quote becomes
two, every other character stays. -/
def escQuoteChar (c : Char) : List Char :=
  if c = sqlQuote then [sqlQuote, sqlQuote] else [c]

/-- strings.ReplaceAll(s, single-quote, two single-quotes) of ingestion.go:
the pattern is one character, so the replacement is the per-character
expansion. -/
def goReplaceAllQuote (s : String) : String :=
  ⟨(s.data.map escQuoteChar).flatten⟩

/-- Whether every maximal run of single quotes in the character list has even
length, i.e. every quote is consumed as part of a doubled (escaped) pair; a
lone quote anywhere makes it false. -/
def quoteRunsEven : List Char → Bool
  | [] => true
  | [c] => if c = sqlQuote then false else true
  | c :: c2 :: rest =>
      if c = sqlQuote then
        if c2 = sqlQuote then quoteRunsEven rest else false
      else quoteRunsEven (c2 :: rest)

/-- Go map indexing into a parsed record; a missing key yields the nil
interface value (record["item_id"] in insertMockData). -/
def recLookup (r : GoRec) (k : String) : JVal :=
  match r.find? (fun p => p.1 == k) with
  | some p => p.2
  | none => .null

/-- The eight %s arguments of the per-record VALUES clause built by
insertMockData (ingestion.go lines 114-132), in template order. -/
structure ValueParts where
  itemId : String
  itemType : String
  classification : String
  ts : String
  dataSource : String
  rawData : String
  batchId : String
  dataType : String
deriving DecidableEq, Repr

/-- insertMockData's per-record argument computation: the four well-known
fields rendered with %s, the request's data source, the record re-marshalled
to JSON with single quotes doubled, the batch identifier, and the data-type
tag from request metadata. -/
def buildValueParts (codec : JsonCodec) (req : IngestionRequest)
    (batchID : String) (r : GoRec) : ValueParts :=
  { itemId := goSprintfS (recLookup r "item_id")
    itemType := goSprintfS (recLookup r "item_type")
    classification := goSprintfS (recLookup r "classification_marking")
    ts := goSprintfS (recLookup r "timestamp")
    dataSource := req.dataSource
    rawData := goReplaceAllQuote (codec.marshal r)
    batchId := batchID
    dataType := lookupD req.metadata "data_type" }

/-- The Sprintf template of one VALUES clause (ingestion.go lines 114-123),
with the parts substituted for the %s verbs. -/
def renderValue (v : ValueParts) : String :=
  "(\n\t\t\t'" ++ v.itemId ++ "',\n\t\t\t'" ++ v.itemType
    ++ "', \n\t\t\t'" ++ v.classification ++ "',\n\t\t\tTIMESTAMP '" ++ v.ts
    ++ "',\n\t\t\t'" ++ v.dataSource ++ "',\n\t\t\t'" ++ v.rawData
    ++ "',\n\t\t\tcurrent_timestamp(),\n\t\t\tmap('source', 'mock_blade', "
    ++ "'batch_id', '" ++ v.batchId ++ "', 'data_type', '" ++ v.dataType
    ++ "')\n\t\t)"

/-- strings.Join with a separator. -/
def goJoin (sep : String) : List String → String
  | [] => ""
  | [s] => s
  | s :: rest => s ++ sep ++ goJoin sep rest

/-- The INSERT statement template of insertMockData (ingestion.go lines
140-155): three-part table name, fixed column list, and the joined VALUES
clauses substituted for the final %s. -/
def buildInsertSQL (catalog schema tableName valuesJoined : String) : String :=
  "\n\t\tINSERT INTO " ++ catalog ++ "." ++ schema ++ "." ++ tableName
    ++ " (\n\t\t\titem_id,\n\t\t\titem_type,\n\t\t\tclassification_marking,"
    ++ "\n\t\t\ttimestamp,\n\t\t\tdata_source,\n\t\t\traw_data,"
    ++ "\n\t\t\tingestion_timestamp,\n\t\t\tmetadata\n\t\t) VALUES "
    ++ valuesJoined ++ "\n\t"

/-- insertMockData (ingestion.go): parse SampleData into records (wrapping a
parse failure), build one VALUES clause per record, join them, submit the
single INSERT through the executor (wrapping a transport failure), and return
the number of parsed records.  The statement status of a successful executor
response is only logged, never inspected for failure. -/
def insertMockData (codec : JsonCodec) (c : Client) (env : ExecEnv)
    (req : IngestionRequest) (batchID : String) :
    List ExecCall × Except GoErr Int :=
  match codec.unmarshal req.sampleData with
  | .error e => ([], .error (.wrap "failed to parse sample data" e))
  | .ok records =>
      let values :=
        records.map (fun r => renderValue (buildValueParts codec req batchID r))
      let insertSQL :=
        buildInsertSQL c.catalog c.schema req.tableName (goJoin ",\n" values)
      let call : ExecCall := ⟨.execInsert, insertSQL⟩
      match env.insertR with
      | .error e =>
          ([call], .error (.wrap "failed to insert mock data batch" e))
      | .ok _ => ([call], .ok (records.length : Int))

/-- The error message of the non-mock fallthrough path of IngestBLADEData. -/
def notImplementedMsg : String :=
  "real BLADE ingestion not implemented - use mock data mode for POC"

/-- IngestBLADEData (ingestion.go): provision (failure gives a failed result
and a wrapped error), then in mock mode insert (failure gives a failed result
and a wrapped error; success calls getRowCount, discards its value, and
returns a completed result whose RowsIngested is the inserted count), and
otherwise return a nil result with the not-implemented error. -/
def IngestBLADEData (codec : JsonCodec) (c : Client) (env : ExecEnv)
    (req : IngestionRequest) (batchID : String) : IngestOutput :=
  match ensureTableExists c env req with
  | (t1, some err) =>
      ⟨t1,
        some ⟨0, req.tableName, "failed", some err, none⟩,
        some (.wrap "failed to ensure table exists" err)⟩
  | (t1, none) =>
      if req.sampleData ≠ "" ∧ lookupD req.metadata "mode" = "mock_data" then
        match insertMockData codec c env req batchID with
        | (t2, .error err) =>
            ⟨t1 ++ t2,
              some ⟨0, req.tableName, "failed", some err, none⟩,
              some (.wrap "failed to insert mock data" err)⟩
        | (t2, .ok n) =>
            let t3 := (getRowCount c env req.tableName).1
            ⟨t1 ++ t2 ++ t3,
              some ⟨n, req.tableName, "completed", none,
                some [("source_path", .str req.sourcePath),
                      ("file_format", .str req.fileFormat),
                      ("data_source", .str req.dataSource),
                      ("blade_metadata", .strMap req.metadata),
                      ("ingestion_type", .str "mock_data_insert")]⟩,
              none⟩
      else ⟨t1, none, some (.base notImplementedMsg)⟩

/-- BLADEDataMapping (blade/models.go). -/
structure BLADEDataMapping where
  dataType : String
  tableName : String
  sourcePath : String
  description : String
deriving DecidableEq, Repr

/-- GetBLADEMappings (blade/models.go): the four static mappings. -/
def GetBLADEMappings : List BLADEDataMapping :=
  [⟨"maintenance", "blade_maintenance_data", "mock://maintenance",
      "Aircraft maintenance schedules and predictive maintenance data"⟩,
   ⟨"sortie", "blade_sortie_schedules", "mock://sortie",
      "Flight schedules and sortie planning data"⟩,
   ⟨"deployment", "blade_deployment_plans", "mock://deployment",
      "Deployment preparation and logistics planning"⟩,
   ⟨"logistics", "blade_logistics_general", "mock://logistics",
      "General logistics and supply chain data"⟩]

/-- The adapter's data-type lookup: NewBLADEAdapter indexes GetBLADEMappings
by DataType (the four keys are distinct), and PrepareIngestionRequest looks
the requested type up in that index. -/
def adapterLookup (dt : String) : Option BLADEDataMapping :=
  GetBLADEMappings.find? (fun m => m.dataType == dt)

/-- unicode.IsSpace as used by strings.TrimSpace: Go's White_Space set. -/
def goIsSpace (c : Char) : Bool :=
  c = ' ' || c = '\t' || c = '\n' || c = '\x0b' || c = '\x0c' || c = '\r'
    || c.toNat = 0x85 || c.toNat = 0xa0 || c.toNat = 0x1680
    || (0x2000 ≤ c.toNat && c.toNat ≤ 0x200a)
    || c.toNat = 0x2028 || c.toNat = 0x2029 || c.toNat = 0x202f
    || c.toNat = 0x205f || c.toNat = 0x3000

/-- strings.TrimSpace: drop leading and trailing white space. -/
def goTrimSpace (s : String) : String :=
  ⟨((s.data.dropWhile goIsSpace).reverse.dropWhile goIsSpace).reverse⟩

/-- strings.Split for a one-character separator, on character lists: every
occurrence of the separator ends a part, so n separators give n+1 parts and
the empty input gives one empty part. -/
def goSplitChars (sepChar : Char) (cs : List Char) : List (List Char) :=
  cs.foldr
    (fun c acc =>
      match acc with
      | tok :: rest =>
          if c = sepChar then [] :: tok :: rest else (c :: tok) :: rest
      | [] => [[c]])
    [[]]

/-- strings.Split(s, sep).  The program only splits on the one-character
separator ";"; a separator that is not a single character is outside the
translated behaviour and returns the input whole. -/
def goSplit (s : String) (sep : String) : List String :=
  match sep.data with
  | [sepChar] => (goSplitChars sepChar s.data).map (fun cs => ⟨cs⟩)
  | _ => [s]

/-- splitAndTrim (adapter.go): split on the separator (strings.Split), trim
each part, keep the non-empty ones in order. -/
def splitAndTrim (s : String) (sep : String) : List String :=
  (goSplit s sep).foldr
    (fun part acc =>
      let trimmed := goTrimSpace part
      if trimmed = "" then acc else trimmed :: acc)
    []

/-- The per-cell normalization of loadMockCSVAsJSON's row loop (adapter.go
lines 206-217): a non-empty cell of parts_required or compliance_refs splits
into a string list, an empty cell of those fields gives the empty list, an
empty cell of any other field gives null, and any other cell stays a string. -/
def processCell (header : String) (value : String) : JVal :=
  if header = "parts_required" ∨ header = "compliance_refs" then
    if value ≠ "" then .arr ((splitAndTrim value ";").map .str)
    else .arr []
  else if value = "" then .null
  else .str value

/-- One data row of loadMockCSVAsJSON zipped against the headers: for each
header index j with j < len(row), the cell is normalized and stored under the
header (Go map assignment: a repeated header overwrites). -/
def recInsert (r : GoRec) (k : String) (v : JVal) : GoRec :=
  match r with
  | [] => [(k, v)]
  | (k2, v2) :: rest =>
      if k2 = k then (k, v) :: rest else (k2, v2) :: recInsert rest k v

/-- Build one record from headers and a data row (the inner loop of
loadMockCSVAsJSON). -/
def buildCSVRecord (headers : List String) (row : List String) : GoRec :=
  headers.enum.foldl
    (fun rec p =>
      match p with
      | (j, header) =>
          if j < row.length then
            recInsert rec header (processCell header (row.getD j ""))
          else rec)
    []

/-- encoding/csv Reader.ReadAll over the lexed rows with the default
FieldsPerRecord: the first record fixes the expected field count and every
later record must match it, otherwise ReadAll fails with the wrong-number-of-
fields parse error. -/
def csvReadAll (rows : List (List String)) :
    Except GoErr (List (List String)) :=
  match rows with
  | [] => .ok []
  | hd :: tl =>
      if tl.all (fun r => r.length == hd.length) then .ok (hd :: tl)
      else .error (.base "wrong number of fields")

/-- loadMockCSVAsJSON's record construction (adapter.go lines 173-222) from
the lexed CSV rows: ReadAll (a read failure is wrapped with the file path,
abstracted here), the at-least-one-data-row check, then the header zip over
every data row. -/
def csvToRecords (rows : List (List String)) : Except GoErr (List GoRec) :=
  match csvReadAll rows with
  | .error e => .error (.wrap "failed to read CSV file" e)
  | .ok validated =>
      match validated with
      | [] => .error (.base "CSV file has no data rows")
      | [_] => .error (.base "CSV file has no data rows")
      | headers :: dataRows =>
          .ok (dataRows.map (fun row => buildCSVRecord headers row))

/-- loadMockCSVAsJSON's result: the records marshalled back to a JSON string
(json.Marshal of these values never fails). -/
def loadMockCSVAsJSON (codec : JsonCodec) (rows : List (List String)) :
    Except GoErr String :=
  match csvToRecords rows with
  | .error e => .error e
  | .ok recs => .ok (codec.marshalList recs)

/-- PrepareIngestionRequest (adapter.go): look the data type up (unknown
types are rejected), default an empty format to JSON, load sample data for
JSON or CSV through the abstract loaders (wrapping loader and CSV failures),
reject every other format, and build the request with the fixed wire format,
format options and the six metadata entries.  loadJSON models
loadMockDataFile's file read; loadCSV models the CSV file open and lexing of
loadMockCSVAsJSON, whose field-count validation and row processing are
csvToRecords. -/
def PrepareIngestionRequest (codec : JsonCodec)
    (loadJSON : String → Except GoErr String)
    (loadCSV : String → Except GoErr (List (List String)))
    (dataSource : String) (dataType : String) (format : String) :
    Except GoErr IngestionRequest :=
  match adapterLookup dataType with
  | none => .error (.base ("Unsupported BLADE data type: " ++ dataType))
  | some mapping =>
      let format := if format = "" then "JSON" else format
      let loaded : Option (Except GoErr String) :=
        if format = "JSON" then some (loadJSON dataType)
        else if format = "CSV" then
          some (match loadCSV dataType with
                | .error e => .error e
                | .ok rows => loadMockCSVAsJSON codec rows)
        else none
      match loaded with
      | none =>
          .error (.base ("Unsupported format: " ++ format
            ++ ". Use JSON or CSV"))
      | some (.error e) =>
          .error (.wrap ("failed to load mock data for " ++ dataType) e)
      | some (.ok sd) =>
          .ok { tableName := mapping.tableName
                sourcePath := "mock://" ++ dataType
                fileFormat := "JSON"
                formatOptions := "'multiLine' = 'true', 'inferSchema' = 'true'"
                dataSource := dataSource
                sampleData := sd
                metadata :=
                  [("source_system", "BLADE"),
                   ("data_type", dataType),
                   ("integration", "databricks_poc"),
                   ("description", mapping.description),
                   ("mode", "mock_data"),
                   ("original_format", format)] }

/-- Whether an Except value is ok. -/
def exceptIsOk {α : Type} : Except GoErr α → Bool
  | .ok _ => true
  | .error _ => false

/-- A concrete client configuration for concrete runs (the POC defaults:
catalog blade_poc, schema logistics). -/
def cDemo : Client := ⟨"wh123", "blade_poc", "logistics"⟩

/-- A successful executor response with no result rows. -/
def respOk : ExecResp := ⟨.succeeded, []⟩

/-- An environment in which every executor call succeeds and the COUNT query
returns no rows (getRowCount then reports 0). -/
def envAllOk : ExecEnv :=
  ⟨.ok respOk, .ok respOk, .ok respOk, .ok respOk, .ok respOk⟩

/-- Like envAllOk, but the COUNT query returns the single cell "5": the
verification reads back 5 rows (e.g. the table already held rows from an
earlier batch). -/
def envCount5 : ExecEnv := { envAllOk with countR := .ok ⟨.succeeded, [["5"]]⟩ }

/-- Like envAllOk, but the INSERT statement comes back with state FAILED while
the executor call itself returns no transport error. -/
def envInsertFailedState : ExecEnv :=
  { envAllOk with insertR := .ok ⟨.failed, []⟩ }

/-- Like envAllOk, but the CREATE CATALOG call fails with a transport error. -/
def envCatalogFail : ExecEnv :=
  { envAllOk with catalogR := .error (.base "warehouse unreachable") }

/-- Like envAllOk, but the INSERT call fails with a transport error. -/
def envInsertFail : ExecEnv :=
  { envAllOk with insertR := .error (.base "insert rejected") }

/-- A concrete JSON codec for concrete runs: it decodes the empty array and
one two-record payload, and marshals every record to a fixed object text. -/
def demoCodec : JsonCodec :=
  { unmarshal := fun s =>
      if s = "[]" then .ok []
      else if s = "[{},{}]" then .ok [[], []]
      else .error (.base "invalid character")
    marshal := fun _ => "{}"
    marshalList := fun _ => "[]" }

/-- A concrete mock-mode request whose sample data decodes to two records
under demoCodec. -/
def reqMock2 : IngestionRequest :=
  { tableName := "blade_maintenance_data"
    sourcePath := "mock://maintenance"
    fileFormat := "JSON"
    formatOptions := "'multiLine' = 'true', 'inferSchema' = 'true'"
    dataSource := "BLADE_LOGISTICS"
    sampleData := "[{},{}]"
    metadata := [("mode", "mock_data"), ("data_type", "maintenance")] }

/-- reqMock2 with empty sample data (the non-mock fallthrough). -/
def reqEmptySample : IngestionRequest := { reqMock2 with sampleData := "" }

/-- reqMock2 with sample data that decodes to the empty record array. -/
def reqMockNil : IngestionRequest := { reqMock2 with sampleData := "[]" }

/-- A concrete JSON file loader: every data type has the empty-array file. -/
def demoLoadJSON (dataType : String) : Except GoErr String :=
  if dataType = "" then .error (.base "no such file") else .ok "[]"

/-- A concrete CSV file loader: every data type has a one-column header and
one data row. -/
def demoLoadCSV (dataType : String) : Except GoErr (List (List String)) :=
  if dataType = "" then .error (.base "no such file")
  else .ok [["item_id"], ["M1"]]

/-- A second pair of loaders that always fail, used to show loader
independence of the rejection paths. -/
def failLoadJSON (dataType : String) : Except GoErr String :=
  .error (.base ("unreadable " ++ dataType))

/-- See failLoadJSON. -/
def failLoadCSV (dataType : String) : Except GoErr (List (List String)) :=
  .error (.base ("unreadable " ++ dataType))

/-- Helper: a non-quote character in front of a list does not change whether
all quote runs are even. -/
theorem quoteRunsEven_cons_of_ne (c : Char) (l : List Char)
    (h : ¬ c = sqlQuote) : quoteRunsEven (c :: l) = quoteRunsEven l := by
  cases l <;> simp [quoteRunsEven, h]

/-- Helper: the quote-doubling expansion of any character list has only even
quote runs, i.e. it never contains a lone (unescaped) single quote. -/
theorem quoteRunsEven_flatten (cs : List Char) :
    quoteRunsEven ((cs.map escQuoteChar).flatten) = true := by
  induction cs with
  | nil => rfl
  | cons c rest ih =>
      by_cases h : c = sqlQuote
      · subst h
        simp only [List.map_cons, List.flatten_cons, escQuoteChar, if_pos rfl]
        simpa [quoteRunsEven] using ih
      · simp only [List.map_cons, List.flatten_cons, escQuoteChar, if_neg h,
          List.singleton_append]
        rw [quoteRunsEven_cons_of_ne c _ h]
        exact ih

/-- Helper: getRowCount always performs exactly its one COUNT call. -/
theorem getRowCount_calls (c : Client) (env : ExecEnv) (tableName : String) :
    (getRowCount c env tableName).1 =
      [⟨CallTag.execCount, countSQL c tableName⟩] := rfl

/-- Helper: the provisioning phase only ever performs catalog, schema and
table calls, never an insert. -/
theorem provisioning_calls_no_insert (c : Client) (env : ExecEnv)
    (req : IngestionRequest) :
    ∀ call ∈ (ensureTableExists c env req).1, call.tag ≠ CallTag.execInsert := by
  unfold ensureTableExists ensureCatalogAndSchema
  rcases env.catalogR with e | r1
  · simp
  · rcases env.schemaR with e | r2
    · simp
    · rcases env.tableR with e | r3 <;> simp

/-- Helper: the adapter lookup misses every string other than the four known
data-type identifiers. -/
theorem adapterLookup_eq_none (dt : String) (h1 : dt ≠ "maintenance")
    (h2 : dt ≠ "sortie") (h3 : dt ≠ "deployment") (h4 : dt ≠ "logistics") :
    adapterLookup dt = none := by
  unfold adapterLookup GetBLADEMappings
  rw [List.find?_eq_none]
  intro m hm
  simp only [List.mem_cons, List.mem_singleton] at hm
  rcases hm with h | h | h | h | h
  all_goals first
    | (subst h; simp [beq_iff_eq]; intro hh; first
        | exact h1 hh.symm | exact h2 hh.symm
        | exact h3 hh.symm | exact h4 hh.symm)
    | exact absurd h (List.not_mem_nil m)

/-- C1 (amended): for every mock-mode ingestion request on which provisioning
and the bulk insert succeed, IngestBLADEData returns a completed result whose
RowsIngested always equals exactly the number of records parsed from the
request's SampleData; getRowCount is still invoked for verification, but its
count is discarded even when the verification succeeds. -/
theorem C1_rows_ingested_equals_parsed (codec : JsonCodec) (c : Client)
    (env : ExecEnv) (req : IngestionRequest) (batchID : String)
    (records : List GoRec) (resp : ExecResp)
    (hmode : req.sampleData ≠ "" ∧ lookupD req.metadata "mode" = "mock_data")
    (hprov : (ensureTableExists c env req).2 = none)
    (hparse : codec.unmarshal req.sampleData = .ok records)
    (hins : env.insertR = .ok resp) :
    ((IngestBLADEData codec c env req batchID).result.map
        (fun r => (r.status, r.rowsIngested))) =
      some ("completed", (records.length : Int)) ∧
      ⟨CallTag.execCount, countSQL c req.tableName⟩ ∈
        (IngestBLADEData codec c env req batchID).calls := by
  unfold IngestBLADEData
  rcases hq : ensureTableExists c env req with ⟨t1, e1⟩
  rw [hq] at hprov
  simp only at hprov
  subst hprov
  simp [hq, hmode, insertMockData, hparse, hins, getRowCount]

/-- C1 witness: a concrete successful run with two parsed records reports two
ingested rows and performs the COUNT verification call. -/
theorem C1_rows_ingested_equals_parsed_witness :
    ((IngestBLADEData demoCodec cDemo envAllOk reqMock2 "42").result.map
        (fun r => (r.status, r.rowsIngested))) = some ("completed", 2) ∧
      ⟨CallTag.execCount, countSQL cDemo reqMock2.tableName⟩ ∈
        (IngestBLADEData demoCodec cDemo envAllOk reqMock2 "42").calls :=
  C1_rows_ingested_equals_parsed demoCodec cDemo envAllOk reqMock2 "42"
    [[], []] respOk ⟨by decide, rfl⟩ rfl rfl rfl

/-- C1 counterexample to the claim as stated: in a run where the COUNT
verification succeeds and reads back 5 rows, the completed result still
reports 2 (the parsed-record count), not the verified count, although the
verification call did not fail. -/
theorem C1_verified_count_discarded_cex :
    ((IngestBLADEData demoCodec cDemo envCount5 reqMock2 "42").result.map
        (fun r => (r.status, r.rowsIngested))) = some ("completed", 2) ∧
      (getRowCount cDemo envCount5 reqMock2.tableName).2 = .ok 5 ∧
      ¬((2 : Int) = 5) :=
  ⟨rfl, rfl, by decide⟩

/-- C2: for every ingestion request on which the provisioning step
(ensureTableExists) fails, IngestBLADEData never performs an insert call and
returns a result with status failed, RowsIngested 0 and a non-null error,
plus a wrapped error to the caller. -/
theorem C2_provisioning_failure_failed_result (codec : JsonCodec) (c : Client)
    (env : ExecEnv) (req : IngestionRequest) (batchID : String) (err : GoErr)
    (h : (ensureTableExists c env req).2 = some err) :
    (IngestBLADEData codec c env req batchID).result =
        some ⟨0, req.tableName, "failed", some err, none⟩ ∧
      (IngestBLADEData codec c env req batchID).err =
        some (.wrap "failed to ensure table exists" err) ∧
      ∀ call ∈ (IngestBLADEData codec c env req batchID).calls,
        call.tag ≠ CallTag.execInsert := by
  have htags := provisioning_calls_no_insert c env req
  unfold IngestBLADEData
  rcases hq : ensureTableExists c env req with ⟨t1, e1⟩
  rw [hq] at h htags
  simp only at h
  subst h
  simp_all

/-- C2 witness: a concrete run whose CREATE CATALOG call fails yields the
failed zero-row result with the wrapped error and makes no insert call. -/
theorem C2_provisioning_failure_failed_result_witness :
    (IngestBLADEData demoCodec cDemo envCatalogFail reqMock2 "7").result =
        some ⟨0, reqMock2.tableName, "failed",
          some (.wrap "failed to create catalog blade_poc"
            (.base "warehouse unreachable")), none⟩ ∧
      (IngestBLADEData demoCodec cDemo envCatalogFail reqMock2 "7").err =
        some (.wrap "failed to ensure table exists"
          (.wrap "failed to create catalog blade_poc"
            (.base "warehouse unreachable"))) ∧
      ∀ call ∈
          (IngestBLADEData demoCodec cDemo envCatalogFail reqMock2 "7").calls,
        call.tag ≠ CallTag.execInsert :=
  C2_provisioning_failure_failed_result demoCodec cDemo envCatalogFail
    reqMock2 "7"
    (.wrap "failed to create catalog blade_poc" (.base "warehouse unreachable"))
    rfl

/-- C3 (amended): for every mock-mode ingestion request on which the bulk
insert call returns an error (a sample-data parse failure or an executor
transport error), IngestBLADEData produces a structured result with status
failed together with a wrapped error and never a completed result; an
executor response reporting a failed statement status without a transport
error is, however, treated as success (see the counterexample). -/
theorem C3_insert_error_failed_result (codec : JsonCodec) (c : Client)
    (env : ExecEnv) (req : IngestionRequest) (batchID : String) (e : GoErr)
    (hmode : req.sampleData ≠ "" ∧ lookupD req.metadata "mode" = "mock_data")
    (hprov : (ensureTableExists c env req).2 = none)
    (hfail : (insertMockData codec c env req batchID).2 = .error e) :
    (IngestBLADEData codec c env req batchID).result =
        some ⟨0, req.tableName, "failed", some e, none⟩ ∧
      (IngestBLADEData codec c env req batchID).err =
        some (.wrap "failed to insert mock data" e) ∧
      ((IngestBLADEData codec c env req batchID).result.map
        (fun r => r.status)) ≠ some "completed" := by
  unfold IngestBLADEData
  rcases hq : ensureTableExists c env req with ⟨t1, e1⟩
  rw [hq] at hprov
  simp only at hprov
  subst hprov
  rcases hi : insertMockData codec c env req batchID with ⟨t2, r2⟩
  rw [hi] at hfail
  simp only at hfail
  subst hfail
  simp [hq, hmode, hi]

/-- C3 witness: a concrete run whose INSERT call fails with a transport error
yields the failed result with the doubly wrapped error. -/
theorem C3_insert_error_failed_result_witness :
    (IngestBLADEData demoCodec cDemo envInsertFail reqMock2 "7").result =
        some ⟨0, reqMock2.tableName, "failed",
          some (.wrap "failed to insert mock data batch"
            (.base "insert rejected")), none⟩ ∧
      (IngestBLADEData demoCodec cDemo envInsertFail reqMock2 "7").err =
        some (.wrap "failed to insert mock data"
          (.wrap "failed to insert mock data batch"
            (.base "insert rejected"))) ∧
      ((IngestBLADEData demoCodec cDemo envInsertFail reqMock2 "7").result.map
        (fun r => r.status)) ≠ some "completed" :=
  C3_insert_error_failed_result demoCodec cDemo envInsertFail reqMock2 "7"
    (.wrap "failed to insert mock data batch" (.base "insert rejected"))
    ⟨by decide, rfl⟩ rfl rfl

/-- C3 counterexample to the claim as stated: when the executor reports a
FAILED statement status but no transport error for the INSERT, insertMockData
treats the call as a success and the run ends with a completed result and no
error. -/
theorem C3_failed_status_completed_cex :
    ((IngestBLADEData demoCodec cDemo envInsertFailedState reqMock2 "7").result.map
        (fun r => r.status)) = some "completed" ∧
      envInsertFailedState.insertR = .ok ⟨.failed, []⟩ ∧
      (IngestBLADEData demoCodec cDemo envInsertFailedState reqMock2 "7").err =
        none :=
  ⟨rfl, rfl, rfl⟩

/-- C4 (amended): a CSV input whose header row has more fields than some data
row is rejected by the CSV reader's uniform field-count validation (the
encoding/csv default), so normalization fails with an error instead of
producing a record lacking the trailing header fields. -/
theorem C4_short_row_rejected (header : List String)
    (rows : List (List String)) (row : List String) (hmem : row ∈ rows)
    (hlt : row.length < header.length) :
    exceptIsOk (csvToRecords (header :: rows)) = false := by
  have hall : (rows.all (fun r => r.length == header.length)) = false := by
    rw [List.all_eq_false]
    exact ⟨row, hmem, by simp [Nat.ne_of_lt hlt]⟩
  unfold csvToRecords csvReadAll
  simp [hall, exceptIsOk]

/-- C4 witness: a three-field header with a two-field data row is rejected. -/
theorem C4_short_row_rejected_witness :
    exceptIsOk (csvToRecords [["a", "b", "c"], ["1", "2"]]) = false :=
  C4_short_row_rejected ["a", "b", "c"] [["1", "2"]] ["1", "2"]
    (by simp) (by decide)

/-- C4 counterexample to the claim as stated: a two-field header with a
one-field data row does not normalize successfully; it fails with the
wrong-number-of-fields read error. -/
theorem C4_short_row_not_accepted_cex :
    (["h1", "h2"] : List String).length > (["x"] : List String).length ∧
      csvToRecords [["h1", "h2"], ["x"]] =
        .error (.wrap "failed to read CSV file"
          (.base "wrong number of fields")) :=
  ⟨by decide, rfl⟩

/-- C5: CSV normalization maps the multi-value cell "a; b ;c" to the list
["a","b","c"] (split on the semicolon, segments trimmed, empty segments
dropped), maps an empty cell of parts_required or compliance_refs to the
empty list, and maps an empty cell of any other field to null rather than the
empty string. -/
theorem C5_csv_cell_normalization :
    processCell "parts_required" "a; b ;c" =
        .arr [.str "a", .str "b", .str "c"] ∧
      buildCSVRecord ["parts_required"] ["a; b ;c"] =
        [("parts_required", .arr [.str "a", .str "b", .str "c"])] ∧
      (∀ h : String, h = "parts_required" ∨ h = "compliance_refs" →
        processCell h "" = .arr []) ∧
      (∀ h : String, h ≠ "parts_required" → h ≠ "compliance_refs" →
        processCell h "" = .null) := by
  refine ⟨rfl, rfl, ?_, ?_⟩
  · intro h hh
    rcases hh with h1 | h1 <;> subst h1 <;> rfl
  · intro h h1 h2
    simp [processCell, h1, h2]

/-- C5 witness: the inner quantified parts hold at the concrete fields
compliance_refs (empty cell gives the empty list) and item_id (empty cell
gives null). -/
theorem C5_csv_cell_normalization_witness :
    processCell "compliance_refs" "" = .arr [] ∧
      processCell "item_id" "" = .null :=
  ⟨C5_csv_cell_normalization.2.2.1 "compliance_refs" (Or.inr rfl),
    C5_csv_cell_normalization.2.2.2 "item_id" (by decide) (by decide)⟩

/-- C6 (amended): PrepareIngestionRequest treats an unspecified (empty)
format exactly as JSON; for a known data type it accepts exactly the
uppercase strings JSON and CSV — the JSON path succeeds with the loaded file
content as sample data, the CSV path succeeds with the normalized records
marshalled back to JSON, each with the request built from the mapping and the
defaulted format stored as original_format — and rejects every other format
with the unsupported-format error, independently of the file loaders (no file
access in the rejection case).  Acceptance is case-sensitive: lowercase
spellings such as "json" are rejected (the counterexample); case folding
happens only in the CLI wrapper. -/
theorem C6_format_default_and_case_sensitive :
    (∀ (codec : JsonCodec) (lJ : String → Except GoErr String)
        (lC : String → Except GoErr (List (List String))) (ds dt : String),
      PrepareIngestionRequest codec lJ lC ds dt "" =
        PrepareIngestionRequest codec lJ lC ds dt "JSON") ∧
    (∀ (codec : JsonCodec) (lJ : String → Except GoErr String)
        (lC : String → Except GoErr (List (List String)))
        (ds dt : String) (m : BLADEDataMapping) (sd : String),
      adapterLookup dt = some m → lJ dt = .ok sd →
      PrepareIngestionRequest codec lJ lC ds dt "JSON" =
        .ok { tableName := m.tableName
              sourcePath := "mock://" ++ dt
              fileFormat := "JSON"
              formatOptions := "'multiLine' = 'true', 'inferSchema' = 'true'"
              dataSource := ds
              sampleData := sd
              metadata :=
                [("source_system", "BLADE"),
                 ("data_type", dt),
                 ("integration", "databricks_poc"),
                 ("description", m.description),
                 ("mode", "mock_data"),
                 ("original_format", "JSON")] }) ∧
    (∀ (codec : JsonCodec) (lJ : String → Except GoErr String)
        (lC : String → Except GoErr (List (List String)))
        (ds dt : String) (m : BLADEDataMapping)
        (rows : List (List String)) (recs : List GoRec),
      adapterLookup dt = some m → lC dt = .ok rows →
      csvToRecords rows = .ok recs →
      PrepareIngestionRequest codec lJ lC ds dt "CSV" =
        .ok { tableName := m.tableName
              sourcePath := "mock://" ++ dt
              fileFormat := "JSON"
              formatOptions := "'multiLine' = 'true', 'inferSchema' = 'true'"
              dataSource := ds
              sampleData := codec.marshalList recs
              metadata :=
                [("source_system", "BLADE"),
                 ("data_type", dt),
                 ("integration", "databricks_poc"),
                 ("description", m.description),
                 ("mode", "mock_data"),
                 ("original_format", "CSV")] }) ∧
    (∀ (codec : JsonCodec) (lJ lJ2 : String → Except GoErr String)
        (lC lC2 : String → Except GoErr (List (List String)))
        (ds dt fmt : String) (m : BLADEDataMapping),
      adapterLookup dt = some m →
      fmt ≠ "" → fmt ≠ "JSON" → fmt ≠ "CSV" →
      PrepareIngestionRequest codec lJ lC ds dt fmt =
          .error (.base ("Unsupported format: " ++ fmt
            ++ ". Use JSON or CSV")) ∧
        PrepareIngestionRequest codec lJ lC ds dt fmt =
          PrepareIngestionRequest codec lJ2 lC2 ds dt fmt) := by
  refine ⟨?_, ?_, ?_, ?_⟩
  · intro codec lJ lC ds dt
    unfold PrepareIngestionRequest
    cases h : adapterLookup dt <;> simp
  · intro codec lJ lC ds dt m sd hm hlj
    unfold PrepareIngestionRequest
    rw [hm]
    simp [hlj]
  · intro codec lJ lC ds dt m rows recs hm hlc hrecs
    unfold PrepareIngestionRequest
    rw [hm]
    simp [hlc, loadMockCSVAsJSON, hrecs]
  · intro codec lJ lJ2 lC lC2 ds dt fmt m hm h0 hj hc
    unfold PrepareIngestionRequest
    rw [hm]
    simp [h0, hj, hc]

/-- C6 witness: for the maintenance data type, the exact format JSON is
accepted (the request is built with the loaded sample data), the exact format
CSV is accepted (the request carries the marshalled normalized records), and
the format XML is rejected with the unsupported-format error, with the same
outcome under working loaders and under loaders that always fail (no file
access). -/
theorem C6_format_default_and_case_sensitive_witness :
    PrepareIngestionRequest demoCodec demoLoadJSON demoLoadCSV
        "BLADE_LOGISTICS" "maintenance" "JSON" =
      .ok { tableName := "blade_maintenance_data"
            sourcePath := "mock://maintenance"
            fileFormat := "JSON"
            formatOptions := "'multiLine' = 'true', 'inferSchema' = 'true'"
            dataSource := "BLADE_LOGISTICS"
            sampleData := "[]"
            metadata :=
              [("source_system", "BLADE"),
               ("data_type", "maintenance"),
               ("integration", "databricks_poc"),
               ("description",
                 "Aircraft maintenance schedules and predictive maintenance data"),
               ("mode", "mock_data"),
               ("original_format", "JSON")] } ∧
    PrepareIngestionRequest demoCodec demoLoadJSON demoLoadCSV
        "BLADE_LOGISTICS" "maintenance" "CSV" =
      .ok { tableName := "blade_maintenance_data"
            sourcePath := "mock://maintenance"
            fileFormat := "JSON"
            formatOptions := "'multiLine' = 'true', 'inferSchema' = 'true'"
            dataSource := "BLADE_LOGISTICS"
            sampleData := "[]"
            metadata :=
              [("source_system", "BLADE"),
               ("data_type", "maintenance"),
               ("integration", "databricks_poc"),
               ("description",
                 "Aircraft maintenance schedules and predictive maintenance data"),
               ("mode", "mock_data"),
               ("original_format", "CSV")] } ∧
    PrepareIngestionRequest demoCodec demoLoadJSON demoLoadCSV
        "BLADE_LOGISTICS" "maintenance" "XML" =
      .error (.base "Unsupported format: XML. Use JSON or CSV") ∧
    PrepareIngestionRequest demoCodec demoLoadJSON demoLoadCSV
        "BLADE_LOGISTICS" "maintenance" "XML" =
      PrepareIngestionRequest demoCodec failLoadJSON failLoadCSV
        "BLADE_LOGISTICS" "maintenance" "XML" := by
  refine ⟨?_, ?_, ?_⟩
  · exact C6_format_default_and_case_sensitive.2.1 demoCodec demoLoadJSON
      demoLoadCSV "BLADE_LOGISTICS" "maintenance"
      ⟨"maintenance", "blade_maintenance_data", "mock://maintenance",
        "Aircraft maintenance schedules and predictive maintenance data"⟩
      "[]" rfl rfl
  · exact C6_format_default_and_case_sensitive.2.2.1 demoCodec demoLoadJSON
      demoLoadCSV "BLADE_LOGISTICS" "maintenance"
      ⟨"maintenance", "blade_maintenance_data", "mock://maintenance",
        "Aircraft maintenance schedules and predictive maintenance data"⟩
      [["item_id"], ["M1"]] [[("item_id", .str "M1")]] rfl rfl rfl
  · exact C6_format_default_and_case_sensitive.2.2.2 demoCodec demoLoadJSON
      failLoadJSON demoLoadCSV failLoadCSV "BLADE_LOGISTICS" "maintenance"
      "XML"
      ⟨"maintenance", "blade_maintenance_data", "mock://maintenance",
        "Aircraft maintenance schedules and predictive maintenance data"⟩
      rfl (by decide) (by decide) (by decide)

/-- C6 counterexample to the claim as stated: the lowercase format "json" is
not accepted case-insensitively; PrepareIngestionRequest rejects it with the
unsupported-format error. -/
theorem C6_lowercase_json_rejected_cex :
    PrepareIngestionRequest demoCodec demoLoadJSON demoLoadCSV
        "BLADE_LOGISTICS" "maintenance" "json" =
      .error (.base "Unsupported format: json. Use JSON or CSV") := rfl

/-- C7: the adapter's data-type lookup succeeds for exactly the four
identifiers maintenance, sortie, deployment and logistics, and for every
other string (including case-mismatched variants) PrepareIngestionRequest
fails with the unsupported-data-type error. -/
theorem C7_lookup_total_four :
    ((adapterLookup "maintenance").isSome = true ∧
      (adapterLookup "sortie").isSome = true ∧
      (adapterLookup "deployment").isSome = true ∧
      (adapterLookup "logistics").isSome = true) ∧
    ∀ dt : String, dt ≠ "maintenance" → dt ≠ "sortie" →
      dt ≠ "deployment" → dt ≠ "logistics" →
      adapterLookup dt = none ∧
      ∀ (codec : JsonCodec) (lJ : String → Except GoErr String)
          (lC : String → Except GoErr (List (List String)))
          (ds fmt : String),
        PrepareIngestionRequest codec lJ lC ds dt fmt =
          .error (.base ("Unsupported BLADE data type: " ++ dt)) := by
  refine ⟨⟨rfl, rfl, rfl, rfl⟩, ?_⟩
  intro dt h1 h2 h3 h4
  have hnone := adapterLookup_eq_none dt h1 h2 h3 h4
  refine ⟨hnone, ?_⟩
  intro codec lJ lC ds fmt
  unfold PrepareIngestionRequest
  rw [hnone]

/-- C7 witness: the case-mismatched identifier Maintenance misses the lookup
and is rejected with the unsupported-data-type error. -/
theorem C7_lookup_total_four_witness :
    adapterLookup "Maintenance" = none ∧
      PrepareIngestionRequest demoCodec demoLoadJSON demoLoadCSV
          "BLADE_LOGISTICS" "Maintenance" "JSON" =
        .error (.base "Unsupported BLADE data type: Maintenance") := by
  have h := C7_lookup_total_four.2 "Maintenance"
    (by decide) (by decide) (by decide) (by decide)
  exact ⟨h.1, h.2 demoCodec demoLoadJSON demoLoadCSV "BLADE_LOGISTICS" "JSON"⟩

/-- C8 (amended): IngestBLADEData returns a non-null structured result on a
provisioning failure and on every outcome of a mock-mode run; but for a
request whose SampleData is empty or whose metadata mode is not mock_data it
returns a nil result together with the not-implemented error (the
counterexample shows the claim's particular cases are exactly the nil-result
path). -/
theorem C8_result_nullability :
    (∀ (codec : JsonCodec) (c : Client) (env : ExecEnv)
        (req : IngestionRequest) (batchID : String) (err : GoErr),
      (ensureTableExists c env req).2 = some err →
        (IngestBLADEData codec c env req batchID).result.isSome = true) ∧
    (∀ (codec : JsonCodec) (c : Client) (env : ExecEnv)
        (req : IngestionRequest) (batchID : String),
      (ensureTableExists c env req).2 = none →
      req.sampleData ≠ "" → lookupD req.metadata "mode" = "mock_data" →
        (IngestBLADEData codec c env req batchID).result.isSome = true) ∧
    (∀ (codec : JsonCodec) (c : Client) (env : ExecEnv)
        (req : IngestionRequest) (batchID : String),
      (ensureTableExists c env req).2 = none →
      ¬(req.sampleData ≠ "" ∧ lookupD req.metadata "mode" = "mock_data") →
        (IngestBLADEData codec c env req batchID).result = none ∧
        (IngestBLADEData codec c env req batchID).err =
          some (.base notImplementedMsg)) := by
  refine ⟨?_, ?_, ?_⟩
  · intro codec c env req batchID err h
    unfold IngestBLADEData
    rcases hq : ensureTableExists c env req with ⟨t1, e1⟩
    rw [hq] at h
    simp only at h
    subst h
    simp
  · intro codec c env req batchID h hne hmode
    unfold IngestBLADEData
    rcases hq : ensureTableExists c env req with ⟨t1, e1⟩
    rw [hq] at h
    simp only at h
    subst h
    rcases hi : insertMockData codec c env req batchID with ⟨t2, r2⟩
    rcases r2 with e2 | n2 <;> simp [hq, hne, hmode, hi]
  · intro codec c env req batchID h hnm
    unfold IngestBLADEData
    rcases hq : ensureTableExists c env req with ⟨t1, e1⟩
    rw [hq] at h
    simp only at h
    subst h
    simp [hq, hnm]

/-- C8 witness: a concrete provisioning failure still yields a non-null
structured result. -/
theorem C8_result_nullability_witness :
    (IngestBLADEData demoCodec cDemo envCatalogFail reqMock2 "7").result.isSome
      = true :=
  C8_result_nullability.1 demoCodec cDemo envCatalogFail reqMock2 "7"
    (.wrap "failed to create catalog blade_poc" (.base "warehouse unreachable"))
    rfl

/-- C8 counterexample to the claim as stated: a request with empty SampleData
(after successful provisioning) gets a nil result and only an error, not a
structured failure result. -/
theorem C8_nil_result_cex :
    (IngestBLADEData demoCodec cDemo envAllOk reqEmptySample "1").result =
        none ∧
      (IngestBLADEData demoCodec cDemo envAllOk reqEmptySample "1").err =
        some (.base notImplementedMsg) :=
  ⟨rfl, rfl⟩

/-- C9: in the bulk insert built by insertMockData, the raw-data column
argument for a record equals that record's JSON serialization with every
literal single-quote character doubled, and the escaped payload therefore
never contains an unescaped (lone) single quote: every maximal quote run in
it has even length. -/
theorem C9_raw_data_quote_escaped (codec : JsonCodec)
    (req : IngestionRequest) (batchID : String) (r : GoRec) :
    (buildValueParts codec req batchID r).rawData =
        goReplaceAllQuote (codec.marshal r) ∧
      quoteRunsEven ((buildValueParts codec req batchID r).rawData).data =
        true := by
  refine ⟨rfl, ?_⟩
  show quoteRunsEven (((codec.marshal r).data.map escQuoteChar).flatten) = true
  exact quoteRunsEven_flatten _

/-- C10: a mock-mode request whose sample data parses to zero records is not
short-circuited and not rejected: the INSERT statement with an empty VALUES
list is still submitted to the executor, and when that call returns without
error the run completes with status completed and zero rows ingested. -/
theorem C10_empty_records_insert_submitted (codec : JsonCodec) (c : Client)
    (env : ExecEnv) (req : IngestionRequest) (batchID : String)
    (resp : ExecResp)
    (hne : req.sampleData ≠ "")
    (hmode : lookupD req.metadata "mode" = "mock_data")
    (hprov : (ensureTableExists c env req).2 = none)
    (hparse : codec.unmarshal req.sampleData = .ok [])
    (hins : env.insertR = .ok resp) :
    ⟨CallTag.execInsert,
        buildInsertSQL c.catalog c.schema req.tableName ""⟩ ∈
      (IngestBLADEData codec c env req batchID).calls ∧
    (IngestBLADEData codec c env req batchID).result =
      some ⟨0, req.tableName, "completed", none,
        some [("source_path", .str req.sourcePath),
              ("file_format", .str req.fileFormat),
              ("data_source", .str req.dataSource),
              ("blade_metadata", .strMap req.metadata),
              ("ingestion_type", .str "mock_data_insert")]⟩ ∧
    (IngestBLADEData codec c env req batchID).err = none := by
  unfold IngestBLADEData
  rcases hq : ensureTableExists c env req with ⟨t1, e1⟩
  rw [hq] at hprov
  simp only at hprov
  subst hprov
  simp [hq, hne, hmode, insertMockData, hparse, hins, goJoin]

/-- C10 witness: a concrete run whose sample data is the empty JSON array
submits the empty-VALUES INSERT and completes with zero rows. -/
theorem C10_empty_records_insert_submitted_witness :
    ⟨CallTag.execInsert,
        buildInsertSQL cDemo.catalog cDemo.schema reqMockNil.tableName ""⟩ ∈
      (IngestBLADEData demoCodec cDemo envAllOk reqMockNil "9").calls ∧
    (IngestBLADEData demoCodec cDemo envAllOk reqMockNil "9").result =
      some ⟨0, reqMockNil.tableName, "completed", none,
        some [("source_path", .str reqMockNil.sourcePath),
              ("file_format", .str reqMockNil.fileFormat),
              ("data_source", .str reqMockNil.dataSource),
              ("blade_metadata", .strMap reqMockNil.metadata),
              ("ingestion_type", .str "mock_data_insert")]⟩ ∧
    (IngestBLADEData demoCodec cDemo envAllOk reqMockNil "9").err = none :=
  C10_empty_records_insert_submitted demoCodec cDemo envAllOk reqMockNil "9"
    respOk (by decide) rfl rfl rfl rfl
